import Mathlib

/-!
Verification development for the FinanceHub dashboard core:
filter resolution, derived metrics, CSV/JSON export, table trends and
number formatters, shallowly embedded from the JavaScript sources.

Numbers flowing through the arithmetic are modelled as exact rationals
wrapped in a JS-style value type (`JSNum`) that also carries the IEEE
special values Infinity, -Infinity and NaN, which JavaScript division by
zero produces.  Record fields are integers (the dataset and all claims
use integer data); divisions are exact rational divisions.
-/

/-- JavaScript number fragment: a finite rational or one of the IEEE
special values produced by division by zero. -/
inductive JSNum where
  | fin : ℚ → JSNum
  | inf : JSNum
  | negInf : JSNum
  | nan : JSNum
deriving DecidableEq, Repr

/-- JavaScript division of two finite numbers: `a / b`, yielding
Infinity, -Infinity or NaN when `b = 0` as IEEE does. -/
def jsDivR (a b : ℚ) : JSNum :=
  if b ≠ 0 then JSNum.fin (a / b)
  else if a > 0 then JSNum.inf
  else if a < 0 then JSNum.negInf
  else JSNum.nan

/-- JavaScript multiplication on the `JSNum` fragment (IEEE rules for
the special values). -/
def jsMul : JSNum → JSNum → JSNum
  | JSNum.nan, _ => JSNum.nan
  | _, JSNum.nan => JSNum.nan
  | JSNum.fin a, JSNum.fin b => JSNum.fin (a * b)
  | JSNum.fin a, JSNum.inf =>
      if a > 0 then JSNum.inf else if a < 0 then JSNum.negInf else JSNum.nan
  | JSNum.fin a, JSNum.negInf =>
      if a > 0 then JSNum.negInf else if a < 0 then JSNum.inf else JSNum.nan
  | JSNum.inf, JSNum.fin b =>
      if b > 0 then JSNum.inf else if b < 0 then JSNum.negInf else JSNum.nan
  | JSNum.negInf, JSNum.fin b =>
      if b > 0 then JSNum.negInf else if b < 0 then JSNum.inf else JSNum.nan
  | JSNum.inf, JSNum.inf => JSNum.inf
  | JSNum.inf, JSNum.negInf => JSNum.negInf
  | JSNum.negInf, JSNum.inf => JSNum.negInf
  | JSNum.negInf, JSNum.negInf => JSNum.inf

/-- `Math.abs` on the `JSNum` fragment. -/
def jsAbs : JSNum → JSNum
  | JSNum.fin a => JSNum.fin |a|
  | JSNum.inf => JSNum.inf
  | JSNum.negInf => JSNum.inf
  | JSNum.nan => JSNum.nan

/-- JavaScript comparison `x > 0` (false on NaN). -/
def jsGt0 : JSNum → Bool
  | JSNum.fin a => decide (a > 0)
  | JSNum.inf => true
  | JSNum.negInf => false
  | JSNum.nan => false

/-- Whether a `JSNum` is a finite number (`Number.isFinite`). -/
def jsIsFinite : JSNum → Bool
  | JSNum.fin _ => true
  | _ => false

/-- Decimal digit characters of a natural number, most significant
first, produced with structural fuel (empty on `n = 0`; the fuel is an
upper bound, recursion stops at zero). -/
def natCharsAux : Nat → Nat → List Char
  | 0, _ => []
  | fuel + 1, n =>
      if n = 0 then []
      else natCharsAux fuel (n / 10) ++ [Nat.digitChar (n % 10)]

/-- Decimal representation of a natural number as a character list
(JavaScript `String(n)` for non-negative integers). -/
def natChars (n : Nat) : List Char :=
  if n = 0 then ['0'] else natCharsAux n n

/-- Decimal representation of an integer as a character list
(JavaScript `String(i)` for integers). -/
def intChars (i : Int) : List Char :=
  if i < 0 then '-' :: natChars i.natAbs else natChars i.toNat

/-- Decimal string of an integer (JavaScript number-to-string for
integer values). -/
def intToStr (i : Int) : String :=
  String.mk (intChars i)

/-- Decimal string of a natural number. -/
def natToStr (n : Nat) : String :=
  String.mk (natChars n)

/-- Accumulating decimal parser: consumes leading digit characters,
returning the accumulated value and the unconsumed rest. -/
def parseNatAux : List Char → Nat → Nat × List Char
  | [], acc => (acc, [])
  | c :: cs, acc =>
      if c.isDigit then parseNatAux cs (acc * 10 + (c.toNat - 48))
      else (acc, c :: cs)

/-- Parses a non-empty run of decimal digits from the front of the
input; fails when the input does not start with a digit. -/
def parseNat (cs : List Char) : Option (Nat × List Char) :=
  match cs with
  | [] => none
  | c :: cs' =>
      if c.isDigit then some (parseNatAux cs' (c.toNat - 48)) else none

/-- Parses an optionally `-`-signed run of decimal digits from the
front of the input. -/
def parseInt (cs : List Char) : Option (Int × List Char) :=
  match cs with
  | '-' :: cs' => (parseNat cs').map (fun p => (-(p.1 : Int), p.2))
  | _ => (parseNat cs).map (fun p => ((p.1 : Int), p.2))

/-- Model of `Number.parseInt` on the year keys of the dataset: parses
an optionally signed digit prefix.  On a key with no leading digits
JavaScript would return NaN; that case is unexercised by the dataset
and the claims and is modelled as `0`. -/
def jsParseIntStr (s : String) : Int :=
  match parseInt s.data with
  | some p => p.1
  | none => 0

/-- JavaScript `Number.prototype.toFixed` on the `JSNum` fragment:
special values print their names; a finite value is rounded to `f`
fractional digits (nearest, ties toward larger, per the spec's
idealized rounding) and printed in fixed-point notation.  The rounded
magnitude `⌊|q| * 10 ^ f + 1 / 2⌋` is computed on the reduced fraction
as `(2 * |num| * 10 ^ f + den) / (2 * den)` in natural division. -/
def jsToFixed (f : Nat) : JSNum → String
  | JSNum.nan => "NaN"
  | JSNum.inf => "Infinity"
  | JSNum.negInf => "-Infinity"
  | JSNum.fin q =>
      let m : Nat := (2 * q.num.natAbs * 10 ^ f + q.den) / (2 * q.den)
      let ds := natChars m
      let ds := if ds.length < f + 1 then List.replicate (f + 1 - ds.length) '0' ++ ds else ds
      let ipart := ds.take (ds.length - f)
      let fpart := ds.drop (ds.length - f)
      String.mk ((if q < 0 then ['-'] else []) ++ ipart ++ (if f = 0 then [] else '.' :: fpart))

/-- One quarterly record as stored in the nested dataset (the `year` is
supplied by the enclosing key). -/
structure QRecord where
  quarter : Nat
  sales_volume : Int
  profit : Int
deriving DecidableEq, Repr

/-- One quarterly record as produced by the filter resolver: the stored
fields plus the annotated source year. -/
structure YRecord where
  quarter : Nat
  sales_volume : Int
  profit : Int
  year : Int
deriving DecidableEq, Repr

/-- Spread-with-year annotation `\x7b ...q, year: y \x7d` from the
resolver. -/
def withYear (q : QRecord) (y : Int) : YRecord :=
  ⟨q.quarter, q.sales_volume, q.profit, y⟩

/-- Year-keyed map of quarterly records; the list order is the object's
property iteration order (`Object.entries`). -/
abbrev YearMap := List (String × List QRecord)

/-- Company-keyed map. -/
abbrev CompanyMap := List (String × YearMap)

/-- Category-keyed dataset. -/
abbrev Dataset := List (String × CompanyMap)

/-- Property lookup on a string-keyed object, first binding wins. -/
def assocFind {α : Type} (k : String) : List (String × α) → Option α
  | [] => none
  | p :: rest => if p.1 = k then some p.2 else assocFind k rest

/-- The embedded sample dataset from `financial-dashboard.jsx`. -/
def sampleData : Dataset :=
  [("food",
    [("MC",
      [("2023",
        [⟨1, 1000, 100⟩, ⟨2, 2000, 50⟩, ⟨3, 1800, 120⟩, ⟨4, 2200, 180⟩]),
       ("2024",
        [⟨1, 2100, 150⟩, ⟨2, 2400, 200⟩, ⟨3, 2600, 220⟩, ⟨4, 2800, 250⟩])])]),
   ("technology",
    [("TECH",
      [("2023",
        [⟨1, 5000, 800⟩, ⟨2, 5500, 900⟩, ⟨3, 6000, 1000⟩, ⟨4, 6200, 1100⟩]),
       ("2024",
        [⟨1, 6500, 1200⟩, ⟨2, 7000, 1300⟩, ⟨3, 7200, 1400⟩, ⟨4, 7500, 1500⟩])])])]

/-- The `filteredData` memo of `FinancialDashboard`: nested lookups by
category and company, then either a flat concatenation over every year
(`"all"`, in the year map's iteration order) or the selected year's
records, each record annotated with its parsed year. -/
def filteredData (dataset : Dataset) (selectedCategory selectedCompany selectedYear : String) :
    List YRecord :=
  match assocFind selectedCategory dataset with
  | none => []
  | some categoryData =>
    match assocFind selectedCompany categoryData with
    | none => []
    | some companyData =>
      if selectedYear = "all" then
        companyData.flatMap (fun p => p.2.map (fun q => withYear q (jsParseIntStr p.1)))
      else
        match assocFind selectedYear companyData with
        | none => []
        | some yearData => yearData.map (fun q => withYear q (jsParseIntStr selectedYear))

/-- The derived metrics computed by `MetricsCards.calculateMetrics`. -/
structure Metrics where
  totalSales : Int
  totalProfit : Int
  avgProfitMargin : JSNum
  growthRate : JSNum
  isGrowthPositive : Bool
deriving DecidableEq, Repr

namespace MetricsCards

/-- The `calculateMetrics` closure of `MetricsCards`: sums by `reduce`,
average margin as `(totalProfit / totalSales) * 100`, growth as the
signed percentage change from the first to the last record of the input
order, absolute value taken for display, positivity judged on the
signed value.  Absent data is modelled as the empty list (the code's
`!data || data.length === 0` guard). -/
def calculateMetrics (data : List YRecord) : Metrics :=
  match data with
  | [] => ⟨0, 0, JSNum.fin 0, JSNum.fin 0, false⟩
  | firstQuarter :: rest =>
    let totalSales : Int := (firstQuarter :: rest).foldl (fun sum item => sum + item.sales_volume) 0
    let totalProfit : Int := (firstQuarter :: rest).foldl (fun sum item => sum + item.profit) 0
    let avgProfitMargin := jsMul (jsDivR (totalProfit : ℚ) (totalSales : ℚ)) (JSNum.fin 100)
    let lastQuarter := (firstQuarter :: rest).getLast (List.cons_ne_nil firstQuarter rest)
    let growthRate :=
      jsMul (jsDivR ((lastQuarter.profit : ℚ) - (firstQuarter.profit : ℚ)) (firstQuarter.profit : ℚ))
        (JSNum.fin 100)
    ⟨totalSales, totalProfit, avgProfitMargin, jsAbs growthRate, jsGt0 growthRate⟩

/-- The Average Profit Margin card value string:
`metrics.avgProfitMargin.toFixed(2)` with a percent suffix. -/
def avgProfitMarginValue (m : Metrics) : String :=
  jsToFixed 2 m.avgProfitMargin ++ ("%")

/-- The Growth Rate card value string:
`metrics.growthRate.toFixed(1)` with a percent suffix. -/
def growthRateValue (m : Metrics) : String :=
  jsToFixed 1 m.growthRate ++ ("%")

end MetricsCards

/-- Grouping pass over reversed digit characters: a comma after every
third digit (seen from the right), as `Intl.NumberFormat("en-US")`
renders integers. -/
def commaRev : List Char → Nat → List Char
  | [], _ => []
  | c :: cs, k =>
      if k = 3 then ',' :: c :: commaRev cs 1 else c :: commaRev cs (k + 1)

/-- Thousands-grouped decimal rendering of a natural number. -/
def groupedNatChars (n : Nat) : List Char :=
  ((commaRev (natChars n).reverse 0).reverse)

/-- Model of `Intl.NumberFormat("en-US").format` on an integer:
thousands-grouped decimal, `-` sign in front. -/
def intlNumber (i : Int) : String :=
  String.mk (if i < 0 then '-' :: groupedNatChars i.natAbs else groupedNatChars i.toNat)

/-- Model of en-US USD currency formatting with
`minimumFractionDigits: 0` on an integer: `$` before the grouped
magnitude, sign first. -/
def intlCurrency (i : Int) : String :=
  String.mk
    (if i < 0 then '-' :: '$' :: groupedNatChars i.natAbs else '$' :: groupedNatChars i.toNat)

/-- `Intl` currency formatting applied to a possibly-undefined value:
`undefined` coerces to NaN, which en-US renders as `$NaN`. -/
def intlCurrencyOpt (v : Option Int) : String :=
  match v with
  | none => "$NaN"
  | some i => intlCurrency i

/-- `Intl` decimal formatting applied to a possibly-undefined value:
`undefined` coerces to NaN, rendered `NaN`. -/
def intlNumberOpt (v : Option Int) : String :=
  match v with
  | none => "NaN"
  | some i => intlNumber i

namespace FinancialChart

/-- `formatCurrency` of `financial-chart`: formats `value || 0`, so an
undefined value is replaced by zero before formatting. -/
def formatCurrency (value : Option Int) : String :=
  intlCurrencyOpt (some (value.getD 0))

/-- `formatNumber` of `financial-chart`: formats `value || 0`. -/
def formatNumber (value : Option Int) : String :=
  intlNumberOpt (some (value.getD 0))

end FinancialChart

namespace FinancialTable

/-- `formatCurrency` of `financial-table`: formats `value` directly,
with no defaulting of undefined input. -/
def formatCurrency (value : Option Int) : String :=
  intlCurrencyOpt value

/-- `formatNumber` of `financial-table`: formats `value` directly. -/
def formatNumber (value : Option Int) : String :=
  intlNumberOpt value

/-- `getProfitTrend` of `financial-table`: no trend when the previous
profit is absent or `0` (both falsy under `!previous`); otherwise the
absolute percentage change to one decimal and positivity of the signed
change. -/
def getProfitTrend (current : Int) (previous : Option Int) : Option (String × Bool) :=
  match previous with
  | none => none
  | some p =>
    if p = 0 then none
    else
      let change := jsMul (jsDivR ((current : ℚ) - (p : ℚ)) (p : ℚ)) (JSNum.fin 100)
      some (jsToFixed 1 (jsAbs change), jsGt0 change)

/-- Trend cell of row `i` of the rendered table: the previous item is
`data[index - 1]` when `index > 0`, else null, and its profit is passed
to `getProfitTrend`. -/
def trendAt (data : List YRecord) (i : Nat) : Option (String × Bool) :=
  match data[i]? with
  | none => none
  | some item =>
    let previousItem := if i > 0 then data[i - 1]? else none
    getProfitTrend item.profit (previousItem.map (fun p => p.profit))

/-- Profit Margin cell of a table row:
`((item.profit / item.sales_volume) * 100).toFixed(2)`. -/
def profitMarginCell (item : YRecord) : String :=
  jsToFixed 2 (jsMul (jsDivR (item.profit : ℚ) (item.sales_volume : ℚ)) (JSNum.fin 100))

end FinancialTable

namespace MetricsCards

/-- `formatCurrency` of `metrics-cards`: formats `value` directly, with
no defaulting of undefined input. -/
def formatCurrency (value : Option Int) : String :=
  intlCurrencyOpt value

/-- `formatNumber` of `metrics-cards`: formats `value` directly. -/
def formatNumber (value : Option Int) : String :=
  intlNumberOpt value

end MetricsCards

/-- JavaScript `Array.prototype.join` with a separator string. -/
def joinSep (s : String) : List String → String
  | [] => ""
  | [a] => a
  | a :: b :: rest => a ++ s ++ joinSep s (b :: rest)

namespace ExportButtons

/-- One CSV data row of `exportToCSV`: year, `Q` + quarter, sales
volume, profit, and the per-row margin
`((item.profit / item.sales_volume) * 100).toFixed(2)` with a percent
suffix, joined by commas. -/
def csvRow (item : YRecord) : String :=
  joinSep (",")
    [intToStr item.year, ("Q") ++ natToStr item.quarter, intToStr item.sales_volume,
     intToStr item.profit,
     jsToFixed 2 (jsMul (jsDivR (item.profit : ℚ) (item.sales_volume : ℚ)) (JSNum.fin 100)) ++ ("%")]

/-- The CSV text of `exportToCSV`: the joined header row followed by
one row per record in input order, lines joined with newlines. -/
def csvContent (data : List YRecord) : String :=
  joinSep ("\n")
    (joinSep (",") [("Year"), ("Quarter"), ("Sales Volume"), ("Profit"), ("Profit Margin")]
      :: data.map csvRow)

/-- The `exportToCSV` handler: returns the delivered CSV text, or
`none` when the guard `!data || data.length === 0` fires and no
delivery happens. -/
def exportToCSV (data : Option (List YRecord)) : Option String :=
  match data with
  | none => none
  | some l => if l = [] then none else some (csvContent l)

/-- Literal opening a serialized record up to the `quarter` value. -/
def litQuarter : List Char :=
  ("  \x7b\n    \"quarter\": ").data

/-- Literal between the `quarter` value and the `sales_volume` value. -/
def litSales : List Char :=
  (",\n    \"sales_volume\": ").data

/-- Literal between the `sales_volume` value and the `profit` value. -/
def litProfit : List Char :=
  (",\n    \"profit\": ").data

/-- Literal between the `profit` value and the `year` value. -/
def litYear : List Char :=
  (",\n    \"year\": ").data

/-- Literal closing a serialized record after the `year` value. -/
def litClose : List Char :=
  ("\n  \x7d").data

/-- Characters of `JSON.stringify` applied to one record object with 2
space indentation at array depth: keys in insertion order `quarter`,
`sales_volume`, `profit`, `year`. -/
def recordChars (r : YRecord) : List Char :=
  litQuarter ++ (natChars r.quarter ++ (litSales ++ (intChars r.sales_volume ++
    (litProfit ++ (intChars r.profit ++ (litYear ++ (intChars r.year ++ litClose)))))))

/-- Record serializations joined by `,` and newline (the element
separator `JSON.stringify` emits at this indentation). -/
def itemsChars : List YRecord → List Char
  | [] => []
  | [r] => recordChars r
  | r :: r' :: rest => recordChars r ++ ',' :: '\n' :: itemsChars (r' :: rest)

/-- Characters of `JSON.stringify(data, null, 2)` for a non-empty array
of records. -/
def jsonChars (data : List YRecord) : List Char :=
  '[' :: '\n' :: (itemsChars data ++ ['\n', ']'])

/-- The `exportToJSON` handler: returns the delivered JSON text
(`JSON.stringify(data, null, 2)`), or `none` when the empty-data guard
fires and no delivery happens. -/
def exportToJSON (data : Option (List YRecord)) : Option String :=
  match data with
  | none => none
  | some l => if l = [] then none else some (String.mk (jsonChars l))

end ExportButtons

/-- Consumes an expected literal from the front of the input, returning
the rest; fails on mismatch. -/
def eatLit : List Char → List Char → Option (List Char)
  | [], cs => some cs
  | _ :: _, [] => none
  | l :: ls, c :: cs => if c = l then eatLit ls cs else none

/-- Parses one serialized record object (the exact shape emitted by the
exporter, which is the only shape JSON.parse meets on exported text). -/
def parseRecordOne (cs : List Char) : Option (YRecord × List Char) :=
  (eatLit ExportButtons.litQuarter cs).bind fun cs1 =>
  (parseNat cs1).bind fun pq =>
  (eatLit ExportButtons.litSales pq.2).bind fun cs2 =>
  (parseInt cs2).bind fun psv =>
  (eatLit ExportButtons.litProfit psv.2).bind fun cs3 =>
  (parseInt cs3).bind fun ppr =>
  (eatLit ExportButtons.litYear ppr.2).bind fun cs4 =>
  (parseInt cs4).bind fun py =>
  (eatLit ExportButtons.litClose py.2).map fun cs5 => (⟨pq.1, psv.1, ppr.1, py.1⟩, cs5)

/-- Parses a `,`-and-newline separated run of record objects followed
by the closing newline and bracket, with structural fuel. -/
def parseItems : Nat → List Char → Option (List YRecord)
  | 0, _ => none
  | fuel + 1, cs =>
    match parseRecordOne cs with
    | none => none
    | some (r, cs) =>
      match eatLit [',', '\n'] cs with
      | some cs' => (parseItems fuel cs').map (fun l => r :: l)
      | none =>
        match eatLit ['\n', ']'] cs with
        | some [] => some [r]
        | _ => none

/-- Parser for the JSON fragment the exporter emits (an array of
records); agrees with `JSON.parse` on every exported text. -/
def parseRecords (cs : List Char) : Option (List YRecord) :=
  match eatLit ['[', '\n'] cs with
  | none => none
  | some cs' => parseItems (cs'.length + 1) cs'

/-- Value of a digit-character list extending an accumulator, as the
digit parser accumulates it (proof support). -/
def listVal (acc : Nat) (ds : List Char) : Nat :=
  ds.foldl (fun a c => a * 10 + (c.toNat - 48)) acc

theorem natCharsAux_digits : ∀ (fuel n : Nat), ∀ c ∈ natCharsAux fuel n, c.isDigit := by
  intro fuel
  induction fuel with
  | zero => intro n c hc; simp [natCharsAux] at hc
  | succ fuel ih =>
    intro n c hc
    by_cases h : n = 0
    · simp [natCharsAux, h] at hc
    · simp only [natCharsAux, h, if_false, List.mem_append, List.mem_singleton] at hc
      rcases hc with hc | hc
      · exact ih _ c hc
      · subst hc
        have h10 : n % 10 < 10 := Nat.mod_lt _ (by norm_num)
        interval_cases h : n % 10 <;> decide

theorem natChars_digits (n : Nat) : ∀ c ∈ natChars n, c.isDigit := by
  intro c hc
  unfold natChars at hc
  by_cases h : n = 0
  · simp [h] at hc; subst hc; decide
  · simp only [h, if_false] at hc
    exact natCharsAux_digits n n c hc

theorem natChars_ne_nil (n : Nat) : natChars n ≠ [] := by
  unfold natChars
  by_cases h : n = 0
  · simp [h]
  · simp only [h, if_false]
    match fuel_def : n with
    | 0 => exact absurd rfl h
    | m + 1 =>
      simp [natCharsAux, h]

theorem listVal_natCharsAux :
    ∀ (fuel n acc : Nat), n ≤ fuel →
      listVal acc (natCharsAux fuel n) = acc * 10 ^ (natCharsAux fuel n).length + n := by
  intro fuel
  induction fuel with
  | zero =>
    intro n acc hn
    interval_cases n
    simp [natCharsAux, listVal]
  | succ fuel ih =>
    intro n acc hn
    by_cases h : n = 0
    · simp [natCharsAux, h, listVal]
    · have hdiv : n / 10 ≤ fuel := by
        have : n / 10 < n := Nat.div_lt_self (Nat.pos_of_ne_zero h) (by norm_num)
        omega
      have hmod : n % 10 < 10 := Nat.mod_lt _ (by norm_num)
      have hdigit : (Nat.digitChar (n % 10)).toNat - 48 = n % 10 := by
        interval_cases hmc : n % 10 <;> decide
      simp only [natCharsAux, h, if_false]
      rw [listVal, List.foldl_append]
      have ihh := ih (n / 10) acc hdiv
      rw [listVal] at ihh
      simp only [List.foldl_cons, List.foldl_nil, ihh, hdigit]
      rw [List.length_append, List.length_singleton, pow_succ]
      have hdm : 10 * (n / 10) + n % 10 = n := Nat.div_add_mod n 10
      ring_nf
      omega

theorem parseNatAux_stop (rest : List Char) (acc : Nat)
    (h : ∀ c, rest.head? = some c → c.isDigit = false) :
    parseNatAux rest acc = (acc, rest) := by
  match rest with
  | [] => rfl
  | c :: cs =>
    have hc : c.isDigit = false := h c rfl
    simp [parseNatAux, hc]

theorem parseNatAux_digit_run :
    ∀ (ds : List Char), (∀ c ∈ ds, c.isDigit) → ∀ (rest : List Char) (acc : Nat),
      parseNatAux (ds ++ rest) acc = parseNatAux rest (listVal acc ds) := by
  intro ds
  induction ds with
  | nil => intro _ rest acc; simp [listVal]
  | cons c cs ih =>
    intro hds rest acc
    have hc : c.isDigit := hds c (List.mem_cons_self c cs)
    simp only [List.cons_append, parseNatAux, hc, if_true, List.append_eq]
    rw [ih (fun x hx => hds x (List.mem_cons_of_mem c hx)) rest]
    simp [listVal]

theorem parseNat_natChars (n : Nat) (rest : List Char)
    (h : ∀ c, rest.head? = some c → c.isDigit = false) :
    parseNat (natChars n ++ rest) = some (n, rest) := by
  by_cases hn : n = 0
  · subst hn
    have h0 : natChars 0 ++ rest = '0' :: rest := by simp [natChars]
    rw [h0]
    simp only [parseNat, show ('0').isDigit = true from by decide, if_true]
    rw [parseNatAux_stop rest _ h]
    have h48 : ('0').toNat - 48 = 0 := by decide
    rw [h48]
  · have hdigits := natChars_digits n
    have hne := natChars_ne_nil n
    match hrep : natChars n with
    | [] => exact absurd hrep hne
    | c :: cs =>
      have hc : c.isDigit := hdigits c (hrep ▸ List.mem_cons_self c cs)
      have hcs : ∀ x ∈ cs, x.isDigit := fun x hx => hdigits x (hrep ▸ List.mem_cons_of_mem c hx)
      simp only [List.cons_append, parseNat, hc, if_true]
      rw [parseNatAux_digit_run cs hcs rest, parseNatAux_stop rest _ h]
      have hval : listVal (c.toNat - 48) cs = n := by
        have h0 : listVal 0 (c :: cs) = n := by
          rw [← hrep]
          unfold natChars
          rw [if_neg hn]
          have := listVal_natCharsAux n n 0 (le_refl n)
          simpa using this
        rw [listVal, List.foldl_cons] at h0
        rw [listVal]
        simpa using h0
      rw [hval]

theorem parseInt_not_dash (c : Char) (t : List Char) (hcne : c ≠ '-') :
    parseInt (c :: t) = (parseNat (c :: t)).map (fun p => ((p.1 : Int), p.2)) := by
  unfold parseInt
  split
  · rename_i cs' heq
    rw [List.cons.injEq] at heq
    exact absurd heq.1 hcne
  · rfl

theorem parseInt_intChars (i : Int) (rest : List Char)
    (h : ∀ c, rest.head? = some c → c.isDigit = false) :
    parseInt (intChars i ++ rest) = some (i, rest) := by
  by_cases hi : i < 0
  · simp only [intChars, if_pos hi, List.cons_append, parseInt]
    rw [parseNat_natChars i.natAbs rest h]
    simp only [Option.map_some']
    exact congrArg some (Prod.ext (by omega) rfl)
  · simp only [intChars, if_neg hi]
    have hdigits := natChars_digits i.toNat
    have hne := natChars_ne_nil i.toNat
    match hrep : natChars i.toNat with
    | [] => exact absurd hrep hne
    | c :: cs =>
      have hc : c.isDigit := hdigits c (hrep ▸ List.mem_cons_self c cs)
      have hcne : c ≠ '-' := by
        intro heq
        rw [heq] at hc
        exact absurd hc (by decide)
      rw [List.cons_append, parseInt_not_dash c (cs ++ rest) hcne, ← List.cons_append, ← hrep,
        parseNat_natChars i.toNat rest h]
      simp only [Option.map_some']
      exact congrArg some (Prod.ext (by simp; omega) rfl)

theorem eatLit_append : ∀ (lit rest : List Char), eatLit lit (lit ++ rest) = some rest := by
  intro lit
  induction lit with
  | nil => intro rest; rfl
  | cons l ls ih =>
    intro rest
    simp only [List.cons_append, eatLit, if_pos rfl]
    exact ih rest

theorem head_notdigit_append (l1 l2 : List Char) (c : Char) (h1 : l1.head? = some c)
    (hc : c.isDigit = false) : ∀ x, ((l1 ++ l2).head? = some x) → x.isDigit = false := by
  intro x hx
  cases l1 with
  | nil => simp [List.head?] at h1
  | cons a t =>
    simp only [List.head?, List.cons_append, Option.some.injEq] at h1 hx
    rw [← hx, h1]
    exact hc

theorem parseRecordOne_recordChars (r : YRecord) (rest : List Char) :
    parseRecordOne (ExportButtons.recordChars r ++ rest) = some (r, rest) := by
  have hS : ∀ (l2 : List Char) (x : Char),
      ((ExportButtons.litSales ++ l2).head? = some x) → x.isDigit = false :=
    fun l2 => head_notdigit_append ExportButtons.litSales l2 ',' (by decide) (by decide)
  have hP : ∀ (l2 : List Char) (x : Char),
      ((ExportButtons.litProfit ++ l2).head? = some x) → x.isDigit = false :=
    fun l2 => head_notdigit_append ExportButtons.litProfit l2 ',' (by decide) (by decide)
  have hY : ∀ (l2 : List Char) (x : Char),
      ((ExportButtons.litYear ++ l2).head? = some x) → x.isDigit = false :=
    fun l2 => head_notdigit_append ExportButtons.litYear l2 ',' (by decide) (by decide)
  have hC : ∀ (l2 : List Char) (x : Char),
      ((ExportButtons.litClose ++ l2).head? = some x) → x.isDigit = false :=
    fun l2 => head_notdigit_append ExportButtons.litClose l2 '\n' (by decide) (by decide)
  have harr : ExportButtons.recordChars r ++ rest =
      ExportButtons.litQuarter ++ (natChars r.quarter ++ (ExportButtons.litSales ++
        (intChars r.sales_volume ++ (ExportButtons.litProfit ++ (intChars r.profit ++
          (ExportButtons.litYear ++ (intChars r.year ++ (ExportButtons.litClose ++ rest)))))))) := by
    simp [ExportButtons.recordChars, List.append_assoc]
  rw [harr, parseRecordOne, eatLit_append, Option.some_bind,
    parseNat_natChars _ _ (hS _), Option.some_bind, eatLit_append, Option.some_bind,
    parseInt_intChars _ _ (hP _), Option.some_bind, eatLit_append, Option.some_bind,
    parseInt_intChars _ _ (hY _), Option.some_bind, eatLit_append, Option.some_bind,
    parseInt_intChars _ _ (hC _), Option.some_bind, eatLit_append, Option.map_some']

theorem recordChars_length_pos (r : YRecord) : 0 < (ExportButtons.recordChars r).length := by
  have : 0 < ExportButtons.litQuarter.length := by decide
  simp only [ExportButtons.recordChars, List.length_append]
  omega

theorem itemsChars_length_ge : ∀ (l : List YRecord), l.length ≤ (ExportButtons.itemsChars l).length := by
  intro l
  induction l with
  | nil => simp [ExportButtons.itemsChars]
  | cons r t ih =>
    cases t with
    | nil =>
      have := recordChars_length_pos r
      simp [ExportButtons.itemsChars]
      omega
    | cons r' t' =>
      have := recordChars_length_pos r
      simp only [ExportButtons.itemsChars, List.length_append, List.length_cons] at *
      omega

theorem parseItems_itemsChars :
    ∀ (l : List YRecord) (fuel : Nat), l ≠ [] → l.length ≤ fuel →
      parseItems fuel (ExportButtons.itemsChars l ++ ['\n', ']']) = some l := by
  intro l
  induction l with
  | nil => intro fuel h; exact absurd rfl h
  | cons r t ih =>
    intro fuel _ hfuel
    match fuel, hfuel with
    | fuel + 1, hfuel =>
      cases t with
      | nil =>
        simp only [ExportButtons.itemsChars, parseItems, parseRecordOne_recordChars]
        rfl
      | cons r' t' =>
        have harr : ExportButtons.itemsChars (r :: r' :: t') ++ ['\n', ']'] =
            ExportButtons.recordChars r ++
              (',' :: '\n' :: (ExportButtons.itemsChars (r' :: t') ++ ['\n', ']'])) := by
          simp [ExportButtons.itemsChars, List.append_assoc]
        rw [harr]
        simp only [parseItems, parseRecordOne_recordChars]
        have heat : eatLit [',', '\n']
            (',' :: '\n' :: (ExportButtons.itemsChars (r' :: t') ++ ['\n', ']'])) =
            some (ExportButtons.itemsChars (r' :: t') ++ ['\n', ']']) := by
          simp [eatLit]
        simp only [heat]
        rw [ih fuel (by simp) (by simp at hfuel ⊢; omega)]
        rfl

theorem parseRecords_jsonChars (l : List YRecord) (h : l ≠ []) :
    parseRecords (ExportButtons.jsonChars l) = some l := by
  unfold parseRecords ExportButtons.jsonChars
  have heat : eatLit ['[', '\n']
      ('[' :: '\n' :: (ExportButtons.itemsChars l ++ ['\n', ']'])) =
      some (ExportButtons.itemsChars l ++ ['\n', ']']) := by
    simp [eatLit]
  rw [heat]
  apply parseItems_itemsChars l _ h
  have h1 := itemsChars_length_ge l
  simp only [List.length_append]
  omega

theorem jsDivR_fin (a b : ℚ) (hb : b ≠ 0) : jsDivR a b = JSNum.fin (a / b) := by
  simp [jsDivR, hb]

theorem jsMul_fin (a b : ℚ) : jsMul (JSNum.fin a) (JSNum.fin b) = JSNum.fin (a * b) := rfl

theorem jsAbs_fin (a : ℚ) : jsAbs (JSNum.fin a) = JSNum.fin |a| := rfl

theorem jsGt0_fin (a : ℚ) : jsGt0 (JSNum.fin a) = decide (a > 0) := rfl

theorem foldl_add_map (f : YRecord → Int) :
    ∀ (l : List YRecord) (a : Int), l.foldl (fun s x => s + f x) a = a + (l.map f).sum := by
  intro l
  induction l with
  | nil => intro a; simp
  | cons x t ih =>
    intro a
    simp only [List.foldl_cons, List.map_cons, List.sum_cons, ih (a + f x)]
    ring

/-- C8: when given an empty or absent record sequence, both CSV export
and JSON export are no-ops: they produce no output text and trigger no
delivery call (the handlers return `none`, so no blob is built and no
anchor click happens) and raise no error (the handlers are total). -/
theorem c8_export_empty_noop :
    ExportButtons.exportToCSV none = none ∧ ExportButtons.exportToCSV (some []) = none ∧
    ExportButtons.exportToJSON none = none ∧ ExportButtons.exportToJSON (some []) = none :=
  ⟨rfl, by decide, rfl, by decide⟩

/-- C6: for every non-empty record sequence, JSON export round-trips:
parsing the exported text (the fragment parser `parseRecords` agrees
with `JSON.parse` on every exported text) yields exactly the input
sequence, `year` fields included, in the same order. -/
theorem c6_json_roundtrip (l : List YRecord) (h : l ≠ []) :
    ∃ s : String, ExportButtons.exportToJSON (some l) = some s ∧ parseRecords s.data = some l := by
  refine ⟨String.mk (ExportButtons.jsonChars l), ?_, ?_⟩
  · simp [ExportButtons.exportToJSON, h]
  · exact parseRecords_jsonChars l h

/-- C6 witness: the round trip at the single sample record. -/
theorem c6_json_roundtrip_witness :
    ∃ s : String, ExportButtons.exportToJSON (some [⟨1, 1000, 100, 2023⟩]) = some s ∧
      parseRecords s.data = some [⟨1, 1000, 100, 2023⟩] :=
  c6_json_roundtrip [⟨1, 1000, 100, 2023⟩] (by decide)

/-- C7: an unknown category, an unknown company under a known
category, or an absent specific year under a known company all resolve
to the empty sequence, with no error raised (the resolver is total). -/
theorem c7_unknown_keys_empty :
    (∀ (ds : Dataset) (cat comp year : String), assocFind cat ds = none →
        filteredData ds cat comp year = []) ∧
    (∀ (ds : Dataset) (cat comp year : String) (cd : CompanyMap),
        assocFind cat ds = some cd → assocFind comp cd = none →
        filteredData ds cat comp year = []) ∧
    (∀ (ds : Dataset) (cat comp year : String) (cd : CompanyMap) (ym : YearMap),
        assocFind cat ds = some cd → assocFind comp cd = some ym → year ≠ "all" →
        assocFind year ym = none → filteredData ds cat comp year = []) := by
  refine ⟨?_, ?_, ?_⟩
  · intro ds cat comp year h
    simp [filteredData, h]
  · intro ds cat comp year cd h1 h2
    simp [filteredData, h1, h2]
  · intro ds cat comp year cd ym h1 h2 h3 h4
    simp [filteredData, h1, h2, h3, h4]

/-- C7 witness: unknown category, unknown company and absent year on
the embedded sample dataset. -/
theorem c7_unknown_keys_empty_witness :
    filteredData sampleData ("sports") ("MC") ("all") = [] ∧
    filteredData sampleData ("food") ("KFC") ("all") = [] ∧
    filteredData sampleData ("food") ("MC") ("2025") = [] :=
  ⟨c7_unknown_keys_empty.1 sampleData ("sports") ("MC") ("all") (by decide),
   c7_unknown_keys_empty.2.1 sampleData ("food") ("KFC") ("all")
     [("MC",
       [("2023", [⟨1, 1000, 100⟩, ⟨2, 2000, 50⟩, ⟨3, 1800, 120⟩, ⟨4, 2200, 180⟩]),
        ("2024", [⟨1, 2100, 150⟩, ⟨2, 2400, 200⟩, ⟨3, 2600, 220⟩, ⟨4, 2800, 250⟩])])]
     (by decide) (by decide),
   c7_unknown_keys_empty.2.2 sampleData ("food") ("MC") ("2025")
     [("MC",
       [("2023", [⟨1, 1000, 100⟩, ⟨2, 2000, 50⟩, ⟨3, 1800, 120⟩, ⟨4, 2200, 180⟩]),
        ("2024", [⟨1, 2100, 150⟩, ⟨2, 2400, 200⟩, ⟨3, 2600, 220⟩, ⟨4, 2800, 250⟩])])]
     [("2023", [⟨1, 1000, 100⟩, ⟨2, 2000, 50⟩, ⟨3, 1800, 120⟩, ⟨4, 2200, 180⟩]),
      ("2024", [⟨1, 2100, 150⟩, ⟨2, 2400, 200⟩, ⟨3, 2600, 220⟩, ⟨4, 2800, 250⟩])]
     (by decide) (by decide) (by decide) (by decide)⟩

/-- C9 counterexample: the claim that every currency/number formatter
treats an absent value as zero before formatting is false for the
table's `formatCurrency` (and the metrics-cards copy): formatting an
absent value yields the NaN rendering, not the rendering of zero. -/
theorem c9_formatter_counterexample :
    FinancialTable.formatCurrency none = ("$NaN") ∧
    FinancialTable.formatCurrency (some 0) = ("$0") ∧
    MetricsCards.formatCurrency none = ("$NaN") ∧
    FinancialTable.formatNumber none = ("NaN") ∧
    (("$NaN") : String) ≠ ("$0") := by
  refine ⟨by decide, by decide, by decide, by decide, by decide⟩

/-- C9 amended: all four formatters are total over number-or-absent
inputs; the chart component's formatters default an absent value to
zero before formatting (`value || 0`), while the table and
metrics-cards formatters format the value directly, so an absent value
renders as the NaN string. -/
theorem c9_formatter_amended :
    (∀ v : Option Int, FinancialChart.formatCurrency v = intlCurrency (v.getD 0) ∧
        FinancialChart.formatNumber v = intlNumber (v.getD 0)) ∧
    FinancialChart.formatCurrency none = FinancialChart.formatCurrency (some 0) ∧
    FinancialChart.formatNumber none = FinancialChart.formatNumber (some 0) ∧
    FinancialTable.formatCurrency none = ("$NaN") ∧
    FinancialTable.formatNumber none = ("NaN") ∧
    MetricsCards.formatCurrency none = ("$NaN") ∧
    MetricsCards.formatNumber none = ("NaN") :=
  ⟨fun v => ⟨rfl, rfl⟩, by decide, by decide, by decide, by decide, by decide, by decide⟩

theorem length_flatMap_withYear (ym : YearMap) :
    (ym.flatMap (fun p => p.2.map (fun q => withYear q (jsParseIntStr p.1)))).length =
      (ym.map (fun p => p.2.length)).sum := by
  induction ym with
  | nil => simp
  | cons p t ih =>
    simp only [List.flatMap_cons, List.length_append, List.length_map, List.map_cons,
      List.sum_cons, ih]

/-- C2: for a year key present under a known category and company the
resolver returns exactly that year's records annotated with the key's
numeric year, with matching length; for `"all"` it returns the
concatenation over the year mapping in its iteration order, with total
length the sum of the per-year lengths; and a canonical numeric year
key parses back to its year, so each record is annotated with the
correct numeric year. -/
theorem c2_resolve_spec :
    (∀ (ds : Dataset) (cat comp : String) (cd : CompanyMap) (ym : YearMap)
        (ykey : String) (y : Int) (qs : List QRecord),
        assocFind cat ds = some cd → assocFind comp cd = some ym →
        ykey ≠ ("all") → jsParseIntStr ykey = y → assocFind ykey ym = some qs →
        filteredData ds cat comp ykey = qs.map (fun q => withYear q y) ∧
        (filteredData ds cat comp ykey).length = qs.length) ∧
    (∀ (ds : Dataset) (cat comp : String) (cd : CompanyMap) (ym : YearMap),
        assocFind cat ds = some cd → assocFind comp cd = some ym →
        filteredData ds cat comp ("all") =
          ym.flatMap (fun p => p.2.map (fun q => withYear q (jsParseIntStr p.1))) ∧
        (filteredData ds cat comp ("all")).length = (ym.map (fun p => p.2.length)).sum) ∧
    (∀ y : Int, jsParseIntStr (intToStr y) = y) := by
  refine ⟨?_, ?_, ?_⟩
  · intro ds cat comp cd ym ykey y qs h1 h2 h3 h4 h5
    have hfd : filteredData ds cat comp ykey = qs.map (fun q => withYear q y) := by
      simp only [filteredData, h1, h2, h3, if_false, h5, h4]
    exact ⟨hfd, by rw [hfd, List.length_map]⟩
  · intro ds cat comp cd ym h1 h2
    have hfd : filteredData ds cat comp ("all") =
        ym.flatMap (fun p => p.2.map (fun q => withYear q (jsParseIntStr p.1))) := by
      simp [filteredData, h1, h2]
    refine ⟨hfd, ?_⟩
    rw [hfd]
    exact length_flatMap_withYear ym
  · intro y
    unfold jsParseIntStr intToStr
    have h := parseInt_intChars y [] (by intro c hc; simp at hc)
    rw [List.append_nil] at h
    simp [h]

/-- C2 witness: the food/MC slice of the sample dataset, for the year
2023 and for all years. -/
theorem c2_resolve_spec_witness :
    (filteredData sampleData ("food") ("MC") ("2023")).length = 4 ∧
    (filteredData sampleData ("food") ("MC") ("all")).length = 8 ∧
    jsParseIntStr (intToStr 2023) = 2023 := by
  have h1 := (c2_resolve_spec.1 sampleData ("food") ("MC")
    [("MC",
      [("2023", [⟨1, 1000, 100⟩, ⟨2, 2000, 50⟩, ⟨3, 1800, 120⟩, ⟨4, 2200, 180⟩]),
       ("2024", [⟨1, 2100, 150⟩, ⟨2, 2400, 200⟩, ⟨3, 2600, 220⟩, ⟨4, 2800, 250⟩])])]
    [("2023", [⟨1, 1000, 100⟩, ⟨2, 2000, 50⟩, ⟨3, 1800, 120⟩, ⟨4, 2200, 180⟩]),
     ("2024", [⟨1, 2100, 150⟩, ⟨2, 2400, 200⟩, ⟨3, 2600, 220⟩, ⟨4, 2800, 250⟩])]
    ("2023") 2023 [⟨1, 1000, 100⟩, ⟨2, 2000, 50⟩, ⟨3, 1800, 120⟩, ⟨4, 2200, 180⟩]
    (by decide) (by decide) (by decide) (by decide) (by decide)).2
  have h2 := (c2_resolve_spec.2.1 sampleData ("food") ("MC")
    [("MC",
      [("2023", [⟨1, 1000, 100⟩, ⟨2, 2000, 50⟩, ⟨3, 1800, 120⟩, ⟨4, 2200, 180⟩]),
       ("2024", [⟨1, 2100, 150⟩, ⟨2, 2400, 200⟩, ⟨3, 2600, 220⟩, ⟨4, 2800, 250⟩])])]
    [("2023", [⟨1, 1000, 100⟩, ⟨2, 2000, 50⟩, ⟨3, 1800, 120⟩, ⟨4, 2200, 180⟩]),
     ("2024", [⟨1, 2100, 150⟩, ⟨2, 2400, 200⟩, ⟨3, 2600, 220⟩, ⟨4, 2800, 250⟩])]
    (by decide) (by decide)).2
  have h3 := c2_resolve_spec.2.2 2023
  refine ⟨by rw [h1]; decide, by rw [h2]; decide, h3⟩

/-- C3: `calculateMetrics` on the empty sequence yields all-zero
metrics with a non-positive growth direction; on any non-empty
sequence with non-zero total sales it yields the component sums as
totals and the average margin `totalProfit / totalSales * 100`. -/
theorem c3_compute_totals :
    MetricsCards.calculateMetrics [] = ⟨0, 0, JSNum.fin 0, JSNum.fin 0, false⟩ ∧
    ∀ (data : List YRecord), data ≠ [] →
      (data.map (fun r => r.sales_volume)).sum ≠ 0 →
      (MetricsCards.calculateMetrics data).totalSales =
        (data.map (fun r => r.sales_volume)).sum ∧
      (MetricsCards.calculateMetrics data).totalProfit = (data.map (fun r => r.profit)).sum ∧
      (MetricsCards.calculateMetrics data).avgProfitMargin =
        JSNum.fin (((((data.map (fun r => r.profit)).sum : Int) : ℚ) /
          ((((data.map (fun r => r.sales_volume)).sum : Int) : ℚ))) * 100) := by
  refine ⟨rfl, ?_⟩
  intro data hne hsum
  match data with
  | d :: t =>
    have hsales : (d :: t).foldl (fun s x => s + x.sales_volume) 0 =
        ((d :: t).map (fun r => r.sales_volume)).sum := by
      rw [foldl_add_map (fun r => r.sales_volume)]; ring
    have hprofit : (d :: t).foldl (fun s x => s + x.profit) 0 =
        ((d :: t).map (fun r => r.profit)).sum := by
      rw [foldl_add_map (fun r => r.profit)]; ring
    refine ⟨?_, ?_, ?_⟩
    · show (d :: t).foldl (fun s x => s + x.sales_volume) 0 = _
      exact hsales
    · show (d :: t).foldl (fun s x => s + x.profit) 0 = _
      exact hprofit
    · show jsMul (jsDivR _ _) (JSNum.fin 100) = _
      rw [hsales, hprofit, jsDivR_fin _ _ (by exact_mod_cast hsum), jsMul_fin]

/-- C3 witness: the four-quarter 2023 sample slice. -/
theorem c3_compute_totals_witness :
    (MetricsCards.calculateMetrics
      [⟨1, 1000, 100, 2023⟩, ⟨2, 2000, 50, 2023⟩, ⟨3, 1800, 120, 2023⟩,
       ⟨4, 2200, 180, 2023⟩]).totalSales = 7000 ∧
    (MetricsCards.calculateMetrics
      [⟨1, 1000, 100, 2023⟩, ⟨2, 2000, 50, 2023⟩, ⟨3, 1800, 120, 2023⟩,
       ⟨4, 2200, 180, 2023⟩]).totalProfit = 450 := by
  have h := c3_compute_totals.2
    [⟨1, 1000, 100, 2023⟩, ⟨2, 2000, 50, 2023⟩, ⟨3, 1800, 120, 2023⟩, ⟨4, 2200, 180, 2023⟩]
    (by decide) (by decide)
  exact ⟨by rw [h.1]; decide, by rw [h.2.1]; decide⟩

theorem mul_hundred_pos_iff (x : ℚ) : x * 100 > 0 ↔ x > 0 := by
  constructor
  · intro h
    nlinarith
  · intro h
    nlinarith

theorem abs_mul_hundred (x : ℚ) : |x * 100| = |x| * 100 := by
  rw [abs_mul]
  norm_num

/-- C4: for a non-empty sequence whose first element has non-zero
profit, the growth rate is the absolute percentage change of profit
from the first to the last element in input order, and the growth
direction is positive exactly when the signed pre-absolute-value delta
is strictly positive. -/
theorem c4_growth_rate (data : List YRecord) (first lastQ : YRecord)
    (hfirst : data.head? = some first) (hlast : data.getLast? = some lastQ)
    (hp : first.profit ≠ 0) :
    (MetricsCards.calculateMetrics data).growthRate =
      JSNum.fin (|((lastQ.profit : ℚ) - (first.profit : ℚ)) / (first.profit : ℚ)| * 100) ∧
    ((MetricsCards.calculateMetrics data).isGrowthPositive = true ↔
      ((lastQ.profit : ℚ) - (first.profit : ℚ)) / (first.profit : ℚ) > 0) := by
  match data with
  | [] => simp at hfirst
  | d :: t =>
    have hd : d = first := by
      simp only [List.head?, Option.some.injEq] at hfirst
      exact hfirst
    subst hd
    have hgl : (d :: t).getLast (List.cons_ne_nil d t) = lastQ := by
      have hq : (d :: t).getLast? = some ((d :: t).getLast (List.cons_ne_nil d t)) := rfl
      rw [hq, Option.some.injEq] at hlast
      exact hlast
    have hcast : ((d.profit : ℚ)) ≠ 0 := Int.cast_ne_zero.mpr hp
    have hsigned :
        jsMul (jsDivR (((((d :: t).getLast (List.cons_ne_nil d t)).profit : ℚ)) - (d.profit : ℚ))
          (d.profit : ℚ)) (JSNum.fin 100) =
        JSNum.fin (((lastQ.profit : ℚ) - (d.profit : ℚ)) / (d.profit : ℚ) * 100) := by
      rw [hgl, jsDivR_fin _ _ hcast, jsMul_fin]
    constructor
    · show jsAbs (jsMul (jsDivR _ _) (JSNum.fin 100)) = _
      rw [hsigned, jsAbs_fin, abs_mul_hundred]
    · show jsGt0 (jsMul (jsDivR _ _) (JSNum.fin 100)) = true ↔ _
      rw [hsigned, jsGt0_fin, decide_eq_true_iff]
      exact mul_hundred_pos_iff _

/-- C4 witness: the four-quarter 2023 sample slice, whose first profit
is 100 and last profit is 180. -/
theorem c4_growth_rate_witness :
    (MetricsCards.calculateMetrics
        [⟨1, 1000, 100, 2023⟩, ⟨2, 2000, 50, 2023⟩, ⟨3, 1800, 120, 2023⟩,
         ⟨4, 2200, 180, 2023⟩]).growthRate =
      JSNum.fin (|((((180 : Int) : ℚ)) - (((100 : Int) : ℚ))) / (((100 : Int) : ℚ))| * 100) ∧
    ((MetricsCards.calculateMetrics
        [⟨1, 1000, 100, 2023⟩, ⟨2, 2000, 50, 2023⟩, ⟨3, 1800, 120, 2023⟩,
         ⟨4, 2200, 180, 2023⟩]).isGrowthPositive = true ↔
      ((((180 : Int) : ℚ)) - (((100 : Int) : ℚ))) / (((100 : Int) : ℚ)) > 0) :=
  c4_growth_rate
    [⟨1, 1000, 100, 2023⟩, ⟨2, 2000, 50, 2023⟩, ⟨3, 1800, 120, 2023⟩, ⟨4, 2200, 180, 2023⟩]
    ⟨1, 1000, 100, 2023⟩ ⟨4, 2200, 180, 2023⟩ rfl rfl (by decide)

/-- C10: the first rendered table row shows no trend indicator; a row
whose preceding record has non-zero profit shows the absolute
percentage profit change to one decimal, marked positive exactly when
the signed change is strictly positive; a row whose preceding record
has zero profit shows no trend indicator (the zero is falsy under the
`!previous` guard). -/
theorem c10_table_trend (data : List YRecord) :
    FinancialTable.trendAt data 0 = none ∧
    (∀ (i : Nat) (prev cur : YRecord), data[i]? = some prev → data[i + 1]? = some cur →
      (prev.profit ≠ 0 →
        FinancialTable.trendAt data (i + 1) =
          some (jsToFixed 1 (JSNum.fin
              (|((cur.profit : ℚ) - (prev.profit : ℚ)) / (prev.profit : ℚ)| * 100)),
            decide (((cur.profit : ℚ) - (prev.profit : ℚ)) / (prev.profit : ℚ) > 0))) ∧
      (prev.profit = 0 → FinancialTable.trendAt data (i + 1) = none)) := by
  constructor
  · unfold FinancialTable.trendAt
    match h0 : data[0]? with
    | none => rfl
    | some item => rfl
  · intro i prev cur hprev hcur
    have hidx : i + 1 - 1 = i := by omega
    have hstep : FinancialTable.trendAt data (i + 1) =
        FinancialTable.getProfitTrend cur.profit (some prev.profit) := by
      unfold FinancialTable.trendAt
      rw [hcur]
      simp only [Nat.lt_irrefl, gt_iff_lt, Nat.succ_pos, if_pos, hidx, hprev, Option.map_some']
    constructor
    · intro hp
      rw [hstep]
      simp only [FinancialTable.getProfitTrend]
      rw [if_neg hp]
      have hcast : ((prev.profit : ℚ)) ≠ 0 := Int.cast_ne_zero.mpr hp
      rw [jsDivR_fin _ _ hcast, jsMul_fin, jsAbs_fin, jsGt0_fin, abs_mul_hundred]
      have hdec : decide (((cur.profit : ℚ) - (prev.profit : ℚ)) / (prev.profit : ℚ) * 100 > 0) =
          decide (((cur.profit : ℚ) - (prev.profit : ℚ)) / (prev.profit : ℚ) > 0) := by
        rw [decide_eq_decide]
        exact mul_hundred_pos_iff _
      rw [hdec]
    · intro hp
      rw [hstep]
      simp only [FinancialTable.getProfitTrend]
      rw [if_pos hp]

/-- C10 witness: a two-row table with profits 100 then 50, and a
two-row table whose first profit is zero. -/
theorem c10_table_trend_witness :
    FinancialTable.trendAt [⟨1, 1000, 100, 2023⟩, ⟨2, 2000, 50, 2023⟩] 0 = none ∧
    FinancialTable.trendAt [⟨1, 1000, 100, 2023⟩, ⟨2, 2000, 50, 2023⟩] 1 =
      some (jsToFixed 1 (JSNum.fin
          (|(((50 : Int) : ℚ) - ((100 : Int) : ℚ)) / ((100 : Int) : ℚ)| * 100)),
        decide ((((50 : Int) : ℚ) - ((100 : Int) : ℚ)) / ((100 : Int) : ℚ) > 0)) ∧
    FinancialTable.trendAt [⟨1, 1000, 0, 2023⟩, ⟨2, 2000, 50, 2023⟩] 1 = none :=
  ⟨(c10_table_trend [⟨1, 1000, 100, 2023⟩, ⟨2, 2000, 50, 2023⟩]).1,
   ((c10_table_trend [⟨1, 1000, 100, 2023⟩, ⟨2, 2000, 50, 2023⟩]).2 0
      ⟨1, 1000, 100, 2023⟩ ⟨2, 2000, 50, 2023⟩ rfl rfl).1 (by decide),
   ((c10_table_trend [⟨1, 1000, 0, 2023⟩, ⟨2, 2000, 50, 2023⟩]).2 0
      ⟨1, 1000, 0, 2023⟩ ⟨2, 2000, 50, 2023⟩ rfl rfl).2 (by decide)⟩

/-- C1: the claim that every division in the derived-metrics and
export paths yields a finite fallback is violated by the code: with a
single record of zero sales volume the average-margin division
produces Infinity, which reaches the card formatter (`toFixed`) and
renders `Infinity%`; the per-row CSV margin and the table margin cell
likewise render `Infinity`; and a first record with zero profit drives
the growth-rate division to Infinity. -/
theorem c1_nonfinite_reaches_formatter :
    (MetricsCards.calculateMetrics [⟨1, 0, 5, 2023⟩]).avgProfitMargin = JSNum.inf ∧
    jsIsFinite (MetricsCards.calculateMetrics [⟨1, 0, 5, 2023⟩]).avgProfitMargin = false ∧
    MetricsCards.avgProfitMarginValue (MetricsCards.calculateMetrics [⟨1, 0, 5, 2023⟩]) =
      ("Infinity%") ∧
    ExportButtons.csvRow ⟨1, 0, 5, 2023⟩ = ("2023,Q1,0,5,Infinity%") ∧
    FinancialTable.profitMarginCell ⟨1, 0, 5, 2023⟩ = ("Infinity") ∧
    (MetricsCards.calculateMetrics [⟨1, 1000, 0, 2023⟩, ⟨2, 1000, 5, 2023⟩]).growthRate =
      JSNum.inf := by
  refine ⟨by decide, by decide, by decide, by decide, by decide, ?_⟩
  norm_num [MetricsCards.calculateMetrics, jsDivR, jsMul, jsAbs, List.getLast]

/-- C5: CSV export of a non-empty sequence is the header line followed
by one row per record in input order (year, `Q` + quarter, sales
volume, profit, and the two-decimal percent margin), and the
single-record sample produces exactly the specified text. -/
theorem c5_csv_export (data : List YRecord) (h : data ≠ []) :
    ExportButtons.exportToCSV (some data) =
      some (joinSep ("\n") (("Year,Quarter,Sales Volume,Profit,Profit Margin") ::
        data.map (fun item =>
          intToStr item.year ++ (",") ++ ("Q") ++ natToStr item.quarter ++ (",") ++
          intToStr item.sales_volume ++ (",") ++ intToStr item.profit ++ (",") ++
          jsToFixed 2 (jsMul (jsDivR (item.profit : ℚ) (item.sales_volume : ℚ)) (JSNum.fin 100))
            ++ ("%")))) ∧
    ExportButtons.exportToCSV (some [⟨1, 1000, 100, 2023⟩]) =
      some ("Year,Quarter,Sales Volume,Profit,Profit Margin\n2023,Q1,1000,100,10.00%") := by
  constructor
  · show (if data = [] then none else some (ExportButtons.csvContent data)) = _
    rw [if_neg h]
    unfold ExportButtons.csvContent
    have hhead : joinSep (",")
        [("Year"), ("Quarter"), ("Sales Volume"), ("Profit"), ("Profit Margin")] =
        ("Year,Quarter,Sales Volume,Profit,Profit Margin") := by decide
    have htail : List.map ExportButtons.csvRow data =
        List.map (fun item =>
          intToStr item.year ++ (",") ++ ("Q") ++ natToStr item.quarter ++ (",") ++
          intToStr item.sales_volume ++ (",") ++ intToStr item.profit ++ (",") ++
          jsToFixed 2 (jsMul (jsDivR (item.profit : ℚ) (item.sales_volume : ℚ)) (JSNum.fin 100))
            ++ ("%")) data := by
      apply List.map_congr_left
      intro item _
      unfold ExportButtons.csvRow
      simp [joinSep, String.append_assoc]
      congr 1
    rw [hhead, htail]
  · show (if ([⟨1, 1000, 100, 2023⟩] : List YRecord) = [] then none
        else some (ExportButtons.csvContent [⟨1, 1000, 100, 2023⟩])) = _
    rw [if_neg (by decide)]
    have hm : jsMul (jsDivR (((100 : Int)) : ℚ) (((1000 : Int)) : ℚ)) (JSNum.fin 100) =
        JSNum.fin 10 := by
      rw [jsDivR_fin _ _ (by norm_num), jsMul_fin]
      norm_num
    unfold ExportButtons.csvContent ExportButtons.csvRow
    simp only [List.map_cons, List.map_nil]
    rw [show ((⟨1, 1000, 100, 2023⟩ : YRecord).profit : ℚ) = (((100 : Int)) : ℚ) from rfl,
      show ((⟨1, 1000, 100, 2023⟩ : YRecord).sales_volume : ℚ) = (((1000 : Int)) : ℚ) from rfl,
      hm]
    decide

/-- C5 witness: the single-record CSV export. -/
theorem c5_csv_export_witness :
    ExportButtons.exportToCSV (some [⟨1, 1000, 100, 2023⟩]) =
      some ("Year,Quarter,Sales Volume,Profit,Profit Margin\n2023,Q1,1000,100,10.00%") :=
  (c5_csv_export [⟨1, 1000, 100, 2023⟩] (by decide)).2
